import Mathlib

/-!
Verification of the Imagify.art request translator (`src/main.py`).

The repository is a single FastAPI module.  Its computational core is:

* `parse_resolution` — scans a resolution string for a separator in the
  preference order `["×", "x", "X", "*"]`, parses the part left of the first
  matching separator as a Python `int`, falling back to `int` of the whole
  string and finally to the default `512`;
* the dimension calculation inside `generate_images` — Python float
  arithmetic `int(base * (rat[0] / rat[1]))` (true division of two ints
  gives an IEEE-754 binary64 value, the int operand of `*` is converted to
  binary64, the product is rounded once more, and `int(...)` truncates
  toward zero; a conversion of an int of magnitude at least 2^1024 raises
  `OverflowError`, and `int(inf)` raises as well);
* the URL loop — seeds `1000 + i` for `i` in `range(count)`, with both
  dimensions capped by `min(·, 1536)` at URL-construction time.

The embedding below models Python `str.strip` / `int(str)` for ASCII input
(Python additionally accepts some non-ASCII whitespace and digits, which no
claim exercises), and binary64 arithmetic exactly, with mantissa/exponent
pairs over ℕ × ℤ: a nonzero finite double is `(m, e)` with
`2^52 ≤ m < 2^53` and value `m * 2^(e-52)`; zero is `(0, 0)`.  All values
reaching the float path have magnitude 0 or ≥ 1, so subnormals never arise
and are not modelled.
-/

namespace Imagify

/-- ASCII whitespace stripped by Python `str.strip()` (and ignored around a
numeral by `int(str)`). -/
def wsChars : List Char := [' ', '\t', '\n', '\r', '\x0b', '\x0c']

/-- Whether a character is ASCII whitespace in the sense of `wsChars`. -/
def isWs (c : Char) : Bool := wsChars.contains c

/-- `str.strip()` on a character list: drop whitespace from both ends. -/
def stripChars (l : List Char) : List Char :=
  ((l.dropWhile isWs).reverse.dropWhile isWs).reverse

/-- Python `payload.prompt.strip()` on a Lean `String`. -/
def pyStrip (s : String) : String := String.mk (stripChars s.data)

/-- ASCII decimal digit test. -/
def isDig (c : Char) : Bool := '0' ≤ c ∧ c ≤ '9'

/-- Value of an ASCII decimal digit. -/
def digVal (c : Char) : ℕ := c.toNat - '0'.toNat

/-- Tail of the Python integer-literal grammar `digit (["_"] digit)*`:
after at least one digit has been read into `acc`, consume further digits,
allowing a single underscore only between two digits. -/
def digitsAux (acc : ℕ) : List Char → Option ℕ
  | [] => some acc
  | c :: cs =>
    if isDig c then digitsAux (10 * acc + digVal c) cs
    else if c = '_' then
      match cs with
      | d :: ds => if isDig d then digitsAux (10 * acc + digVal d) ds else none
      | [] => none
    else none

/-- The Python integer-literal grammar `digit (["_"] digit)*`: a non-empty
digit string with optional single underscores between digits. -/
def digitsVal : List Char → Option ℕ
  | [] => none
  | c :: cs => if isDig c then digitsAux (digVal c) cs else none

/-- Python `int(s)` for a string: strip whitespace, read an optional sign,
then a digit string per `digitsVal`; `none` models `ValueError`. -/
def pyInt (l : List Char) : Option ℤ :=
  match stripChars l with
  | '+' :: r => (digitsVal r).map (fun n => (n : ℤ))
  | '-' :: r => (digitsVal r).map (fun n => -(n : ℤ))
  | r => (digitsVal r).map (fun n => (n : ℤ))

/-- The separator preference list `["×", "x", "X", "*"]` of
`parse_resolution` (each separator is a single character). -/
def sepList : List Char := ['×', 'x', 'X', '*']

/-- The `for sep in [...]` loop of `parse_resolution`: on the first
separator contained in `res`, Python either returns `int` of the part left
of its first occurrence or breaks out of the loop (modelled by `none`);
separators not contained in `res` are skipped. -/
def psLoop (res : List Char) : List Char → Option ℤ
  | [] => none
  | sep :: rest =>
    if sep ∈ res then pyInt (res.takeWhile (fun c => c ≠ sep))
    else psLoop res rest

/-- `parse_resolution` from `src/main.py`: try the separator loop, then
`int` of the whole string, then the default `512`. -/
def parse_resolution (res : String) : ℤ :=
  match psLoop res.data sepList with
  | some n => n
  | none =>
    match pyInt res.data with
    | some n => n
    | none => 512

/-! ### Binary64 model

A nonzero finite double is a pair `(m, e) : ℕ × ℤ` with `2^52 ≤ m < 2^53`,
denoting `m * 2^(e-52)`; zero is `(0, 0)`.  Rounding is to nearest, ties to
even, exactly as CPython performs it in `PyLong_AsDouble`, float true
division and float multiplication. -/

/-- Fuel-driven binary length: `bitLenAux fuel n` is the number of binary
digits of `n` whenever `fuel ≥ n`. -/
def bitLenAux : ℕ → ℕ → ℕ
  | 0, _ => 0
  | fuel + 1, n => if n = 0 then 0 else bitLenAux fuel (n / 2) + 1

/-- Number of binary digits of `n` (0 for 0): `2^(bitLen n - 1) ≤ n < 2^(bitLen n)`. -/
def bitLen (n : ℕ) : ℕ := bitLenAux n n

/-- Round to nearest, ties to even: `n` is the floor of the exact value,
`r / B` its fractional part. -/
def rne (n r B : ℕ) : ℕ :=
  if 2 * r < B then n
  else if B < 2 * r then n + 1
  else if n % 2 = 0 then n else n + 1

/-- Renormalise a mantissa that rounding carried up to `2^53`. -/
def normUp (m : ℕ) (e : ℤ) : ℕ × ℤ :=
  if m = 2 ^ 53 then (2 ^ 52, e + 1) else (m, e)

/-- Whether `2^c ≤ n / d` for positive naturals `n`, `d`. -/
def pow2LE (c : ℤ) (n d : ℕ) : Bool :=
  if 0 ≤ c then 2 ^ c.toNat * d ≤ n else d ≤ 2 ^ (-c).toNat * n

/-- `PyLong_AsDouble` magnitude: round a natural to 53 significant bits,
nearest-even (overflow is checked by the caller on the exponent). -/
def floatOfNat (a : ℕ) : ℕ × ℤ :=
  if a = 0 then (0, 0)
  else
    let L := bitLen a
    if L ≤ 53 then (a * 2 ^ (53 - L), (L : ℤ) - 1)
    else
      let k := L - 53
      normUp (rne (a / 2 ^ k) (a % 2 ^ k) (2 ^ k)) ((L : ℤ) - 1)

/-- Correctly rounded binary64 quotient of two positive naturals (Python
`n / d` on ints). -/
def floatDivPos (n d : ℕ) : ℕ × ℤ :=
  let c : ℤ := (bitLen n : ℤ) - (bitLen d : ℤ)
  let e : ℤ := if pow2LE c n d then c else c - 1
  let s : ℤ := 52 - e
  let A : ℕ := if 0 ≤ s then n * 2 ^ s.toNat else n
  let B : ℕ := if 0 ≤ s then d else d * 2 ^ (-s).toNat
  normUp (rne (A / B) (A % B) B) e

/-- Correctly rounded binary64 product of two nonnegative doubles. -/
def floatMul (x y : ℕ × ℤ) : ℕ × ℤ :=
  if x.1 = 0 ∨ y.1 = 0 then (0, 0)
  else
    let P := x.1 * y.1
    let e0 := x.2 + y.2
    if P < 2 ^ 105 then normUp (rne (P / 2 ^ 52) (P % 2 ^ 52) (2 ^ 52)) e0
    else normUp (rne (P / 2 ^ 53) (P % 2 ^ 53) (2 ^ 53)) (e0 + 1)

/-- Magnitude of Python `int(x)` on a nonnegative double `(m, e)`:
truncation toward zero. -/
def truncFloat (m : ℕ) (e : ℤ) : ℕ :=
  if (52 : ℤ) ≤ e then m * 2 ^ (e - 52).toNat else m / 2 ^ (52 - e).toNat

/-- Python `int(base * (n / d))` for an int `base` and positive ints `n`,
`d`: `n / d` is a binary64 value, `base` is converted to binary64 (raising
`OverflowError`, modelled as `none`, at magnitude ≥ 2^1024), the product is
rounded once more (an infinite product makes `int` raise, also `none`), and
the result is truncated toward zero.  Signs are exact throughout, so the
magnitude is computed on `base.natAbs`. -/
def pyTruncMul (base : ℤ) (n d : ℕ) : Option ℤ :=
  let t1 := floatDivPos n d
  let f := floatOfNat base.natAbs
  if (1024 : ℤ) ≤ f.2 then none
  else
    let p := floatMul f t1
    if (1024 : ℤ) ≤ p.2 then none
    else
      let t : ℤ := (truncFloat p.1 p.2 : ℤ)
      some (if base < 0 then -t else t)

/-- The `ASPECT_MAP` dict of `src/main.py`, in declaration order. -/
def ASPECT_MAP : List (String × ℕ × ℕ) :=
  [("1:1", (1, 1)), ("16:9", (16, 9)), ("9:16", (9, 16)), ("4:3", (4, 3))]

/-- `ASPECT_MAP.get(aspect_key, (1, 1))`. -/
def aspectGet (k : String) : ℕ × ℕ :=
  match ASPECT_MAP.find? (fun p => p.1 == k) with
  | some p => p.2
  | none => (1, 1)

/-- The dimension block of `generate_images`: if `rat[0] >= rat[1]` then
`height = base` and `width = int(base * (rat[0] / rat[1]))`, else
`width = base` and `height = int(base * (rat[1] / rat[0]))`; `none` when
the float computation raises `OverflowError`. -/
def computeDims (base : ℤ) (rat : ℕ × ℕ) : Option (ℤ × ℤ) :=
  if rat.2 ≤ rat.1 then
    match pyTruncMul base rat.1 rat.2 with
    | some w => some (w, base)
    | none => none
  else
    match pyTruncMul base rat.2 rat.1 with
    | some h => some (base, h)
    | none => none

/-- The request model of `src/main.py` (`GenerateRequest`): pydantic
defaults are recorded as Lean field defaults; `count` is an `int` with
schema bounds `ge=1`, `le=9` checked by `schemaCheck`. -/
structure GenerateRequest where
  prompt : String
  art_type : Option String := none
  style : Option String := none
  aspect : Option String := none
  resolution : Option String := some "512×512"
  model : Option String := some "Pollination AI"
  count : ℤ := 6
deriving DecidableEq

/-- The pydantic schema constraints on `GenerateRequest`: `prompt` has
`min_length=3` (code points, before any stripping) and `count` is between
1 and 9. -/
def schemaCheck (r : GenerateRequest) : Bool :=
  3 ≤ r.prompt.length ∧ 1 ≤ r.count ∧ r.count ≤ 9

/-- Python `x or dflt` for an `Optional[str]` `x`: `None` and the empty
string are falsy. -/
def pyOr (x : Option String) (dflt : String) : String :=
  match x with
  | some s => if s = "" then dflt else s
  | none => dflt

/-- How a request can fail: rejected by the pydantic schema, rejected by
the handler with `HTTPException(400, detail)`, or aborted by an uncaught
`OverflowError` from the float computation. -/
inductive Rejection where
  | schema : Rejection
  | http400 : String → Rejection
  | overflow : Rejection
deriving DecidableEq

/-- One generated URL: the f-string of `generate_images`, with both
dimensions capped by `min(·, 1536)` and decimal rendering matching Python
`str` on ints. -/
def mkUrl (pc : String) (w h : ℤ) (seed : ℤ) : String :=
  "https://image.pollinations.ai/prompt/" ++ pc ++ "?width=" ++
    toString (min w 1536) ++ "&height=" ++ toString (min h 1536) ++
    "&seed=" ++ toString seed ++ "&nologo=true"

/-- The body of the `/api/generate` handler `generate_images`, applied to a
schema-valid payload. -/
def generate_images (payload : GenerateRequest) : Except Rejection (List String) :=
  if payload.prompt = "" ∨ (pyStrip payload.prompt).length < 3 then
    .error (.http400 "Prompt is too short.")
  else
    let base := parse_resolution (pyOr payload.resolution "512×512")
    let aspect_key := pyOr payload.aspect "1:1"
    let rat := aspectGet aspect_key
    match computeDims base rat with
    | none => .error .overflow
    | some wh =>
      let pc := pyStrip payload.prompt
      .ok ((List.range payload.count.toNat).map
        (fun (i : ℕ) => mkUrl pc wh.1 wh.2 (1000 + (i : ℤ))))

/-- The full `/api/generate` boundary: pydantic schema validation, then the
handler. -/
def processRequest (r : GenerateRequest) : Except Rejection (List String) :=
  if schemaCheck r then generate_images r else .error .schema

/-- The dimension rule in the spec's words (§4.2 of the spec, exact
integer truncation): if `n ≥ d` then `(⌊base * n / d⌋, base)`, else
`(base, ⌊base * d / n⌋)`, over naturals. -/
def specDims (base : ℕ) (rat : ℕ × ℕ) : ℕ × ℕ :=
  if rat.2 ≤ rat.1 then (base * rat.1 / rat.2, base)
  else (base, base * rat.2 / rat.1)

/-! ### C3 — the worked example of the spec -/

/-- C3: for `prompt="a cat"`, `aspect="16:9"`, `resolution="512×512"`,
`count=2`, the handler computes base 512, height 512, width 910, and
returns exactly the two URLs with `width=910&height=512` and seeds 1000
and 1001, in that order. -/
theorem c3_worked_example :
    processRequest
        { prompt := "a cat", aspect := some "16:9",
          resolution := some "512×512", count := 2 } =
      .ok
        ["https://image.pollinations.ai/prompt/a cat?width=910&height=512&seed=1000&nologo=true",
         "https://image.pollinations.ai/prompt/a cat?width=910&height=512&seed=1001&nologo=true"] := by
  rfl

/-! ### C4 / C5 — `parse_resolution` -/

/-- The separator loop returns exactly the attempt at the first separator
(in preference order) contained in the string. -/
lemma psLoop_eq_some (res : List Char) :
    ∀ (seps : List Char) (sep : Char),
      seps.find? (fun c => decide (c ∈ res)) = some sep →
      psLoop res seps = pyInt (res.takeWhile (fun c => decide (c ≠ sep))) := by
  intro seps
  induction seps with
  | nil => intro sep h; exact absurd h (by simp)
  | cons s rest ih =>
    intro sep h
    by_cases hm : s ∈ res
    · have hfind : (s :: rest).find? (fun c => decide (c ∈ res)) = some s :=
        List.find?_cons_of_pos rest (by simpa using hm)
      rw [hfind] at h
      obtain rfl : s = sep := by simpa using h
      rw [psLoop, if_pos hm]
    · have hfind : (s :: rest).find? (fun c => decide (c ∈ res)) =
          rest.find? (fun c => decide (c ∈ res)) :=
        List.find?_cons_of_neg rest (by simpa using hm)
      rw [hfind] at h
      rw [psLoop, if_neg hm]
      exact ih sep h

/-- When no separator of the preference list is contained in the string,
the separator loop falls through. -/
lemma psLoop_eq_none (res : List Char) :
    ∀ seps : List Char,
      seps.find? (fun c => decide (c ∈ res)) = none →
      psLoop res seps = none := by
  intro seps
  induction seps with
  | nil => intro h; rfl
  | cons s rest ih =>
    intro h
    by_cases hm : s ∈ res
    · have hfind : (s :: rest).find? (fun c => decide (c ∈ res)) = some s :=
        List.find?_cons_of_pos rest (by simpa using hm)
      rw [hfind] at h
      exact absurd h (by simp)
    · have hfind : (s :: rest).find? (fun c => decide (c ∈ res)) =
          rest.find? (fun c => decide (c ∈ res)) :=
        List.find?_cons_of_neg rest (by simpa using hm)
      rw [hfind] at h
      rw [psLoop, if_neg hm]
      exact ih h

/-- C4: when the string contains a separator (checked in the preference
order of `sepList`) and the part left of its first occurrence parses as an
integer, `parse_resolution` returns that integer exactly; when every
parsing attempt fails — first matching separator with an unparsable left
part and an unparsable whole string, or no separator and an unparsable
whole string — it returns 512. -/
theorem c4_parser_exact_and_fallback :
    ∀ res : String,
      (∀ sep n, sepList.find? (fun c => decide (c ∈ res.data)) = some sep →
        pyInt (res.data.takeWhile (fun c => decide (c ≠ sep))) = some n →
        parse_resolution res = n) ∧
      (∀ sep, sepList.find? (fun c => decide (c ∈ res.data)) = some sep →
        pyInt (res.data.takeWhile (fun c => decide (c ≠ sep))) = none →
        pyInt res.data = none →
        parse_resolution res = 512) ∧
      (sepList.find? (fun c => decide (c ∈ res.data)) = none →
        pyInt res.data = none →
        parse_resolution res = 512) := by
  intro res
  refine ⟨?_, ?_, ?_⟩
  · intro sep n hf hp
    unfold parse_resolution
    rw [psLoop_eq_some res.data sepList sep hf, hp]
  · intro sep hf hp hw
    unfold parse_resolution
    rw [psLoop_eq_some res.data sepList sep hf, hp, hw]
  · intro hf hw
    unfold parse_resolution
    rw [psLoop_eq_none res.data sepList hf, hw]

/-- C4 witness: on `"512×512"` the first matching separator is `'×'`, the
left part parses as 512 and the parser returns 512; on `"abc"` no
separator matches, the whole string does not parse, and the parser falls
back to 512. -/
theorem c4_witness :
    sepList.find? (fun c => decide (c ∈ ("512×512" : String).data)) = some '×' ∧
    pyInt (("512×512" : String).data.takeWhile (fun c => decide (c ≠ '×'))) = some 512 ∧
    parse_resolution "512×512" = 512 ∧
    sepList.find? (fun c => decide (c ∈ ("abc" : String).data)) = none ∧
    pyInt ("abc" : String).data = none ∧
    parse_resolution "abc" = 512 :=
  ⟨by decide, by decide, (c4_parser_exact_and_fallback "512×512").1 '×' 512 (by decide) (by decide),
   by decide, by decide,
   (c4_parser_exact_and_fallback "abc").2.2 (by decide) (by decide)⟩

/-- C5 counterexample: the input `"0"` parses successfully and
`parse_resolution` returns 0, which is not positive — refuting the claim
that the result is always a positive integer. -/
theorem c5_counterexample : parse_resolution "0" = 0 := by rfl

/-- C5 (amended): `parse_resolution` is total — on every input it returns
either the integer produced by the separator loop, or the integer parsed
from the whole string, or the positive default 512; no exception escapes,
but a parsed value such as 0 is returned as-is, so the result is not
always positive. -/
theorem c5_total_trichotomy :
    ∀ res : String,
      psLoop res.data sepList = some (parse_resolution res) ∨
      (psLoop res.data sepList = none ∧
        pyInt res.data = some (parse_resolution res)) ∨
      (psLoop res.data sepList = none ∧ pyInt res.data = none ∧
        parse_resolution res = 512 ∧ 0 < parse_resolution res) := by
  intro res
  rcases h1 : psLoop res.data sepList with _ | n
  · rcases h2 : pyInt res.data with _ | m
    · right; right
      refine ⟨rfl, rfl, ?_, ?_⟩ <;> simp [parse_resolution, h1, h2]
    · right; left
      exact ⟨rfl, by simp [parse_resolution, h1, h2]⟩
  · left
    simp [parse_resolution, h1]

/-! ### C7 — unknown aspect tokens -/

/-- A token outside the enumerated set is not found in `ASPECT_MAP`, so the
dict lookup falls back to `(1, 1)`. -/
lemma aspectGet_unknown (tok : String)
    (h : tok ∉ (["1:1", "16:9", "9:16", "4:3"] : List String)) :
    aspectGet tok = (1, 1) := by
  simp only [List.mem_cons, List.not_mem_nil, or_false, not_or] at h
  obtain ⟨h1, h2, h3, h4⟩ := h
  unfold aspectGet ASPECT_MAP
  rw [List.find?_cons_of_neg, List.find?_cons_of_neg, List.find?_cons_of_neg,
    List.find?_cons_of_neg, List.find?_nil] <;>
    simp [Ne.symm h1, Ne.symm h2, Ne.symm h3, Ne.symm h4]

/-- C7: a request whose aspect token lies outside the enumerated set is
processed exactly like the same request with aspect `"1:1"`; the unknown
token is recovered silently, never surfaced as an error. -/
theorem c7_unknown_aspect_like_1_1 :
    ∀ (r : GenerateRequest) (tok : String),
      r.aspect = some tok →
      tok ∉ (["1:1", "16:9", "9:16", "4:3"] : List String) →
      processRequest r = processRequest { r with aspect := some "1:1" } := by
  intro r tok ha hn
  by_cases he : tok = ""
  · subst he
    simp [processRequest, generate_images, schemaCheck, pyOr, ha]
  · have hg : aspectGet tok = aspectGet "1:1" := by
      rw [aspectGet_unknown tok hn]; rfl
    simp [processRequest, generate_images, schemaCheck, pyOr, ha, he, hg]

/-- C7 witness: the unknown token `"2:1"` yields exactly the response of
`"1:1"` on a concrete request. -/
theorem c7_witness :
    ({ prompt := "abc", aspect := some "2:1" } : GenerateRequest).aspect = some "2:1" ∧
    "2:1" ∉ (["1:1", "16:9", "9:16", "4:3"] : List String) ∧
    processRequest { prompt := "abc", aspect := some "2:1" } =
      processRequest { prompt := "abc", aspect := some "1:1" } :=
  ⟨rfl, by decide,
   c7_unknown_aspect_like_1_1 { prompt := "abc", aspect := some "2:1" } "2:1" rfl (by decide)⟩

/-! ### C8 — determinism and metadata-insensitivity -/

/-- C8: the handler is a pure function of `prompt`, `aspect`, `resolution`
and `count`; two requests agreeing on those four fields produce identical
responses regardless of `art_type`, `style` and `model`. -/
theorem c8_deterministic_metadata_free :
    ∀ r1 r2 : GenerateRequest,
      r1.prompt = r2.prompt → r1.aspect = r2.aspect →
      r1.resolution = r2.resolution → r1.count = r2.count →
      processRequest r1 = processRequest r2 := by
  intro r1 r2 h1 h2 h3 h4
  unfold processRequest generate_images schemaCheck
  rw [h1, h2, h3, h4]

/-- C8 witness: two concrete requests that differ in every metadata field
but agree on the computational fields yield the same response. -/
theorem c8_witness :
    processRequest
        { prompt := "a dog", art_type := some "painting", style := some "baroque",
          model := some "other model", count := 3 } =
      processRequest
        { prompt := "a dog", art_type := none, style := none,
          model := none, count := 3 } :=
  c8_deterministic_metadata_free
    { prompt := "a dog", art_type := some "painting", style := some "baroque",
      model := some "other model", count := 3 }
    { prompt := "a dog", art_type := none, style := none, model := none, count := 3 }
    rfl rfl rfl rfl

/-! ### C10 — empty-string fields behave like the defaults -/

/-- C10: a `None` or empty-string `resolution` is processed with the
default `"512×512"` (so base 512), and a `None` or empty-string `aspect`
is processed with `"1:1"` (so ratio `(1, 1)`), giving exactly the response
of the documented defaults. -/
theorem c10_empty_like_default :
    parse_resolution "512×512" = 512 ∧ aspectGet "1:1" = (1, 1) ∧
    (∀ r : GenerateRequest, r.resolution = none ∨ r.resolution = some "" →
      processRequest r = processRequest { r with resolution := some "512×512" }) ∧
    (∀ r : GenerateRequest, r.aspect = none ∨ r.aspect = some "" →
      processRequest r = processRequest { r with aspect := some "1:1" }) := by
  refine ⟨by rfl, by rfl, ?_, ?_⟩
  · intro r h
    rcases h with h | h <;>
      simp [processRequest, generate_images, schemaCheck, pyOr, h]
  · intro r h
    rcases h with h | h <;>
      simp [processRequest, generate_images, schemaCheck, pyOr, h]

/-- C10 witness: a concrete request with `resolution = none` and
`aspect = some ""` equals its fully defaulted counterpart. -/
theorem c10_witness :
    processRequest { prompt := "abc", aspect := some "", resolution := none } =
      processRequest
        { prompt := "abc", aspect := some "1:1", resolution := some "512×512" } := by
  have h1 := (c10_empty_like_default.2.2.1)
    { prompt := "abc", aspect := some "", resolution := none } (Or.inl rfl)
  have h2 := (c10_empty_like_default.2.2.2)
    { prompt := "abc", aspect := some "", resolution := some "512×512" } (Or.inr rfl)
  exact h1.trans h2

/-! ### C6 — validation boundaries -/

/-- C6: a request whose trimmed prompt is shorter than 3 characters is
always rejected — at the schema boundary or by the handler — and never
yields URLs; whenever such a request passes the schema, the handler
rejects it with HTTP 400 and the message `Prompt is too short.`; a `count`
outside `[1, 9]` is rejected at the schema-validation boundary before the
handler runs. -/
theorem c6_validation :
    ∀ r : GenerateRequest,
      ((pyStrip r.prompt).length < 3 →
        (processRequest r = .error .schema ∨
          processRequest r = .error (.http400 "Prompt is too short.")) ∧
        (schemaCheck r = true →
          processRequest r = .error (.http400 "Prompt is too short."))) ∧
      (r.count < 1 ∨ 9 < r.count → processRequest r = .error .schema) := by
  intro r
  constructor
  · intro hshort
    have hcore : schemaCheck r = true →
        processRequest r = .error (.http400 "Prompt is too short.") := by
      intro hs
      unfold processRequest
      rw [if_pos hs]
      unfold generate_images
      rw [if_pos (Or.inr hshort)]
    refine ⟨?_, hcore⟩
    by_cases hs : schemaCheck r = true
    · exact Or.inr (hcore hs)
    · left
      unfold processRequest
      rw [if_neg hs]
  · intro hcount
    have hs : ¬ schemaCheck r = true := by
      simp only [schemaCheck, decide_eq_true_eq, Bool.and_eq_true]
      omega
    unfold processRequest
    rw [if_neg hs]

/-- C6 witness: the whitespace-only prompt `"   "` (three spaces) passes
the schema but is rejected by the handler with HTTP 400 and no URLs; the
whitespace-only prompt `" "` is rejected as well (at the schema boundary,
its raw length being below 3); `count = 0` is rejected at the schema
boundary. -/
theorem c6_witness :
    (pyStrip ("   " : String)).length < 3 ∧
    processRequest { prompt := "   " } = .error (.http400 "Prompt is too short.") ∧
    (processRequest { prompt := " " } = .error .schema ∨
      processRequest { prompt := " " } = .error (.http400 "Prompt is too short.")) ∧
    (((0 : ℤ) < 1) ∨ (9 : ℤ) < 0) ∧
    processRequest { prompt := "abc", count := 0 } = .error .schema :=
  ⟨by decide,
   ((c6_validation { prompt := "   " }).1 (by decide)).2 (by decide),
   ((c6_validation { prompt := " " }).1 (by decide)).1,
   Or.inl (by decide),
   (c6_validation { prompt := "abc", count := 0 }).2 (Or.inl (by decide))⟩

/-! ### C9 — prefix monotonicity in `count` -/

/-- Definitional characterisation of the handler on a request whose
`count` field has been replaced: only the URL loop depends on `count`. -/
lemma generate_images_with_count (r : GenerateRequest) (c : ℤ) :
    generate_images { r with count := c } =
      if r.prompt = "" ∨ (pyStrip r.prompt).length < 3 then
        .error (.http400 "Prompt is too short.")
      else
        match computeDims (parse_resolution (pyOr r.resolution "512×512"))
            (aspectGet (pyOr r.aspect "1:1")) with
        | none => .error .overflow
        | some wh =>
          .ok ((List.range c.toNat).map
            (fun (i : ℕ) => mkUrl (pyStrip r.prompt) wh.1 wh.2 (1000 + (i : ℤ)))) := rfl

/-- C9: for counts `1 ≤ n ≤ m ≤ 9`, the response for count `n` is exactly
the first `n` URLs of the response for count `m` of the otherwise
identical request. -/
theorem c9_count_prefix :
    ∀ (r : GenerateRequest) (n m : ℤ) (l : List String),
      1 ≤ n → n ≤ m → m ≤ 9 →
      processRequest { r with count := m } = .ok l →
      processRequest { r with count := n } = .ok (l.take n.toNat) := by
  intro r n m l h1 h2 h3 hok
  by_cases hs : schemaCheck { r with count := m } = true
  · have hsn : schemaCheck { r with count := n } = true := by
      simp only [schemaCheck, decide_eq_true_eq, Bool.and_eq_true] at hs ⊢
      exact ⟨hs.1, by omega, by omega⟩
    unfold processRequest at hok ⊢
    rw [if_pos hs, generate_images_with_count] at hok
    rw [if_pos hsn, generate_images_with_count]
    by_cases hp : r.prompt = "" ∨ (pyStrip r.prompt).length < 3
    · rw [if_pos hp] at hok
      exact absurd hok (by simp)
    · rw [if_neg hp] at hok
      rw [if_neg hp]
      rcases hcd : computeDims (parse_resolution (pyOr r.resolution "512×512"))
          (aspectGet (pyOr r.aspect "1:1")) with _ | wh
      · rw [hcd] at hok
        exact absurd hok (by simp)
      · rw [hcd] at hok
        have hl : l = (List.range m.toNat).map
            (fun (i : ℕ) => mkUrl (pyStrip r.prompt) wh.1 wh.2 (1000 + (i : ℤ))) := by
          simpa using hok.symm
        subst hl
        have hmin : min n.toNat m.toNat = n.toNat :=
          Nat.min_eq_left (Int.toNat_le_toNat h2)
        show Except.ok ((List.range n.toNat).map
            (fun (i : ℕ) => mkUrl (pyStrip r.prompt) wh.1 wh.2 (1000 + (i : ℤ)))) =
          Except.ok (((List.range m.toNat).map
            (fun (i : ℕ) => mkUrl (pyStrip r.prompt) wh.1 wh.2 (1000 + (i : ℤ)))).take n.toNat)
        rw [← List.map_take, List.take_range, hmin]
  · unfold processRequest at hok
    rw [if_neg hs] at hok
    exact absurd hok (by simp)

/-- C9 witness: with the worked-example request, the 1-URL response is the
first element of the 2-URL response. -/
theorem c9_witness :
    processRequest
        { prompt := "a cat", aspect := some "16:9", resolution := some "512×512",
          count := 1 } =
      .ok
        ["https://image.pollinations.ai/prompt/a cat?width=910&height=512&seed=1000&nologo=true"] :=
  c9_count_prefix
    { prompt := "a cat", aspect := some "16:9", resolution := some "512×512", count := 2 }
    1 2
    ["https://image.pollinations.ai/prompt/a cat?width=910&height=512&seed=1000&nologo=true",
     "https://image.pollinations.ai/prompt/a cat?width=910&height=512&seed=1001&nologo=true"]
    (by decide) (by decide) (by decide) (by rfl)

/-! ### C2 — computed dimensions versus exact integer truncation

The code computes the scaled dimension with Python float arithmetic,
`int(base * (rat[0] / rat[1]))`.  For every base up to 1536 (the URL-level
dimension cap) this agrees bit-for-bit with the exact integer truncation
`base * n / d` stated by the spec, but not for every positive integer
base: at `base = 2^53 + 1` even the `1:1` ratio shrinks the width, because
the base itself is rounded to binary64. -/

/-- C2 counterexample: at `base = 2^53 + 1` with aspect `"1:1"` the code
computes width `2^53` — not `⌊base * 1 / 1⌋ = base` — so the width is not
the exact integer truncation and the smaller dimension differs from
`base`. -/
theorem c2_counterexample :
    computeDims ((9007199254740993 : ℤ)) (aspectGet "1:1") =
      some (9007199254740992, 9007199254740993) ∧
    (9007199254740992 : ℤ) ≠ (9007199254740993 : ℤ) :=
  ⟨by rfl, by decide⟩

/-- Agreement of the float dimension computation with the spec's exact
integer truncation at one base, over all four aspect tokens. -/
def dimsAgree (b : ℕ) : Prop :=
  ∀ tok ∈ (["1:1", "16:9", "9:16", "4:3"] : List String),
    computeDims (b : ℤ) (aspectGet tok) =
      some (((specDims b (aspectGet tok)).1 : ℤ), ((specDims b (aspectGet tok)).2 : ℤ)) ∧
    min (specDims b (aspectGet tok)).1 (specDims b (aspectGet tok)).2 = b

instance dimsAgreeDec (b : ℕ) : Decidable (dimsAgree b) := by
  unfold dimsAgree; infer_instance

set_option maxHeartbeats 8000000 in
set_option maxRecDepth 150000 in
lemma c2chunk1 : ∀ b : ℕ, b < 513 → dimsAgree b := by decide

set_option maxHeartbeats 8000000 in
set_option maxRecDepth 150000 in
lemma c2chunk2 : ∀ b : ℕ, b < 512 → dimsAgree (513 + b) := by decide

set_option maxHeartbeats 8000000 in
set_option maxRecDepth 150000 in
lemma c2chunk3 : ∀ b : ℕ, b < 512 → dimsAgree (1025 + b) := by decide

/-- C2 (amended): for every positive base up to 1536 (the URL-level
dimension cap, covering every realistic resolution) and every enumerated
aspect token, the dimensions computed by the code's float arithmetic equal
the spec's exact integer truncation — `(⌊base * n / d⌋, base)` when
`n ≥ d`, `(base, ⌊base * d / n⌋)` otherwise — and the smaller dimension
equals `base` exactly; for arbitrary positive bases the claim fails (see
the counterexample at `2^53 + 1`). -/
theorem c2_dims_exact_up_to_cap :
    ∀ b : ℕ, b < 1537 → 0 < b →
      ∀ tok ∈ (["1:1", "16:9", "9:16", "4:3"] : List String),
        computeDims (b : ℤ) (aspectGet tok) =
          some (((specDims b (aspectGet tok)).1 : ℤ), ((specDims b (aspectGet tok)).2 : ℤ)) ∧
        min (specDims b (aspectGet tok)).1 (specDims b (aspectGet tok)).2 = b := by
  intro b hb hpos
  by_cases h1 : b < 513
  · exact c2chunk1 b h1
  · by_cases h2 : b < 1025
    · have he : 513 + (b - 513) = b := by omega
      have hd := c2chunk2 (b - 513) (by omega)
      rwa [he] at hd
    · have he : 1025 + (b - 1025) = b := by omega
      have hd := c2chunk3 (b - 1025) (by omega)
      rwa [he] at hd

/-- C2 witness: at `base = 512` with token `"16:9"` the computed
dimensions are `(910, 512)`, matching `⌊512 * 16 / 9⌋ = 910` exactly, and
the smaller dimension is 512. -/
theorem c2_witness :
    (512 : ℕ) < 1537 ∧ 0 < (512 : ℕ) ∧
    "16:9" ∈ (["1:1", "16:9", "9:16", "4:3"] : List String) ∧
    computeDims ((512 : ℕ) : ℤ) (aspectGet "16:9") = some (910, 512) ∧
    min (specDims 512 (aspectGet "16:9")).1 (specDims 512 (aspectGet "16:9")).2 = 512 :=
  ⟨by decide, by decide, by decide,
   ((c2_dims_exact_up_to_cap 512 (by decide) (by decide) "16:9" (by decide)).1).trans (by rfl),
   (c2_dims_exact_up_to_cap 512 (by decide) (by decide) "16:9" (by decide)).2⟩

/-! ### C1 — shape of a successful response -/

/-- Stripping never lengthens a character list. -/
lemma stripChars_length_le (l : List Char) : (stripChars l).length ≤ l.length := by
  unfold stripChars
  rw [List.length_reverse]
  calc (List.dropWhile isWs (List.dropWhile isWs l).reverse).length
      ≤ (List.dropWhile isWs l).reverse.length := (List.dropWhile_sublist _).length_le
    _ = (List.dropWhile isWs l).length := List.length_reverse _
    _ ≤ l.length := (List.dropWhile_sublist _).length_le

/-- Definitional characterisation of the handler body. -/
lemma generate_images_eq (r : GenerateRequest) :
    generate_images r =
      if r.prompt = "" ∨ (pyStrip r.prompt).length < 3 then
        .error (.http400 "Prompt is too short.")
      else
        match computeDims (parse_resolution (pyOr r.resolution "512×512"))
            (aspectGet (pyOr r.aspect "1:1")) with
        | none => .error .overflow
        | some wh =>
          .ok ((List.range r.count.toNat).map
            (fun (i : ℕ) => mkUrl (pyStrip r.prompt) wh.1 wh.2 (1000 + (i : ℤ)))) := rfl

/-- C1 (amended): for every valid request — trimmed prompt of length at
least 3, count in `[1, 9]` — whose dimension computation does not overflow
Python floats (the parsed base stays below about `2^1024`; every
resolution of realistic size qualifies), the handler returns exactly
`count` URLs, the URL at index `i` being the template instantiated with
the computed width and height (each independently capped at 1536 inside
`mkUrl`) and seed `1000 + i`, so seeds run `1000 .. 1000 + count - 1` in
order and are pairwise distinct; with an overflowing base the handler
instead raises `OverflowError` (see the counterexample). -/
theorem c1_url_list (r : GenerateRequest) (w h : ℤ)
    (hpl : 3 ≤ (pyStrip r.prompt).length)
    (hc1 : 1 ≤ r.count) (hc9 : r.count ≤ 9)
    (hcd : computeDims (parse_resolution (pyOr r.resolution "512×512"))
        (aspectGet (pyOr r.aspect "1:1")) = some (w, h)) :
    processRequest r =
      .ok ((List.range r.count.toNat).map
        (fun (i : ℕ) => mkUrl (pyStrip r.prompt) w h (1000 + (i : ℤ)))) ∧
    ((List.range r.count.toNat).map
        (fun (i : ℕ) => mkUrl (pyStrip r.prompt) w h (1000 + (i : ℤ)))).length = r.count.toNat ∧
    (∀ i : ℕ, i < r.count.toNat →
      ((List.range r.count.toNat).map
          (fun (j : ℕ) => mkUrl (pyStrip r.prompt) w h (1000 + (j : ℤ))))[i]? =
        some (mkUrl (pyStrip r.prompt) w h (1000 + (i : ℤ)))) ∧
    ((List.range r.count.toNat).map (fun (i : ℕ) => (1000 : ℤ) + (i : ℤ))).Nodup := by
  have hpl2 : 3 ≤ (stripChars r.prompt.data).length := hpl
  have hd : (stripChars r.prompt.data).length ≤ r.prompt.data.length :=
    stripChars_length_le _
  have hlen : r.prompt.length = r.prompt.data.length := rfl
  have hschema : schemaCheck r = true := by
    simp only [schemaCheck, decide_eq_true_eq]
    refine ⟨by omega, hc1, hc9⟩
  have hne : ¬ (r.prompt = "" ∨ (pyStrip r.prompt).length < 3) := by
    rintro (he | hlt)
    · rw [he] at hpl
      exact absurd hpl (by decide)
    · omega
  refine ⟨?_, ?_, ?_, ?_⟩
  · unfold processRequest
    rw [if_pos hschema, generate_images_eq, if_neg hne, hcd]
  · simp
  · intro i hi
    rw [List.getElem?_map, List.getElem?_range hi]
    rfl
  · refine List.Nodup.map ?_ (List.nodup_range _)
    intro a b hab
    simp only [add_right_inj, Nat.cast_inj] at hab
    exact hab

/-- A schema-valid request whose resolution parses to a 400-digit base,
making the float conversion inside the dimension computation raise
`OverflowError`. -/
def c1cex : GenerateRequest :=
  { prompt := "abc", resolution := some (String.mk (List.replicate 400 '9')), count := 1 }

set_option maxRecDepth 200000 in
set_option maxHeartbeats 2000000 in
/-- C1 counterexample: `c1cex` is a valid request — trimmed prompt of
length 3, count 1 — yet the handler does not return a list of URLs: the
400-digit base overflows the float conversion and the request aborts with
an uncaught `OverflowError`. -/
theorem c1_counterexample :
    3 ≤ (pyStrip c1cex.prompt).length ∧ 1 ≤ c1cex.count ∧ c1cex.count ≤ 9 ∧
    processRequest c1cex = .error .overflow :=
  ⟨by decide, by decide, by decide, by rfl⟩

/-- C1 witness: the worked-example request satisfies every hypothesis and
receives its two seeded URLs. -/
theorem c1_witness :
    3 ≤ (pyStrip ("a cat" : String)).length ∧
    processRequest
        { prompt := "a cat", aspect := some "16:9", resolution := some "512×512",
          count := 2 } =
      .ok
        ["https://image.pollinations.ai/prompt/a cat?width=910&height=512&seed=1000&nologo=true",
         "https://image.pollinations.ai/prompt/a cat?width=910&height=512&seed=1001&nologo=true"] :=
  ⟨by decide,
   (c1_url_list
      { prompt := "a cat", aspect := some "16:9", resolution := some "512×512", count := 2 }
      910 512 (by decide) (by decide) (by decide) (by rfl)).1.trans (by rfl)⟩

end Imagify
